import Mathlib

/-!
A shallow embedding of the `telegram_tagger` bot (`src/main.rs`, `src/db.rs`):
the SQLite-backed roster store, the membership-event handler, the MarkdownV2
escaping function and the `/all` broadcast command, together with theorems
about the roster-consistency and mention-composition logic.

Strings are modelled as `List Char` (Rust iterates `text.chars()`), the
SQLite `users` table as a `List UserRow` with the primary-key upsert/delete
semantics of `db.rs`, and the i64/u64 machine integers as `Int`/`Nat` with
the explicit `as i64` conversion spelled out.
-/

/-- The MarkdownV2 special-character array of `escape_markdown_v2`
(`src/main.rs` lines 287-289).  Note that the backslash itself is NOT in
this array. -/
def specialChars : List Char :=
  ['_', '*', '[', ']', '(', ')', '~', Char.ofNat 96, '>', '#', '+', '-', '=',
   '|', '{', '}', '.', '!']

/-- Embeds `escape_markdown_v2` (`src/main.rs` lines 286-300): the source
folds over `text.chars()`, pushing a backslash before every character that
occurs in `special_chars` and then pushing the character itself. -/
def escape_markdown_v2 : List Char → List Char
  | [] => []
  | c :: rest =>
    (if specialChars.contains c then ['\\', c] else [c]) ++ escape_markdown_v2 rest

/-- The reserved-character set named by the specification: the eighteen
special characters PLUS the escape character backslash itself. -/
def claimReserved : List Char := specialChars ++ ['\\']

/-- Scans a character list remembering the previous character; `true` when
every occurrence of a character from `reserved` is immediately preceded by a
backslash (the escape character). -/
def escAux (reserved : List Char) : Option Char → List Char → Bool
  | _, [] => true
  | prev, c :: rest =>
    (!(reserved.contains c) || prev == some '\\') && escAux reserved (some c) rest

/-- Every occurrence of a character from `reserved` in `l` is immediately
preceded by an escape character (so in particular none is unescaped at the
head of `l`). -/
def escapedProperly (reserved : List Char) (l : List Char) : Bool :=
  escAux reserved none l

/-- Mirrors `db::User` (`src/db.rs` lines 4-8): a tracked user as returned
by `get_users_for_chat`. -/
structure User where
  user_id : Int
  first_name : List Char
deriving DecidableEq

/-- A row of the `users` table created by `init_db` (`src/db.rs` lines
14-22): key `(chat_id, user_id)`, single mutable attribute `first_name`. -/
structure UserRow where
  chat_id : Int
  user_id : Int
  first_name : List Char
deriving DecidableEq

/-- Embeds `db::upsert_user` (`src/db.rs` lines 28-38): `INSERT ... ON
CONFLICT(chat_id, user_id) DO UPDATE SET first_name = excluded.first_name`.
The primary key guarantees at most one matching row, which this list model
updates in place; a missing row is appended. -/
def upsert_user : List UserRow → Int → Int → List Char → List UserRow
  | [], c, i, n => [⟨c, i, n⟩]
  | r :: rest, c, i, n =>
    if r.chat_id = c ∧ r.user_id = i then ⟨c, i, n⟩ :: rest
    else r :: upsert_user rest c i n

/-- Embeds `db::delete_user` (`src/db.rs` lines 55-62): `DELETE FROM users
WHERE chat_id = ?1 AND user_id = ?2`; deleting an absent row is a no-op. -/
def delete_user (db : List UserRow) (c i : Int) : List UserRow :=
  db.filter (fun r => !(r.chat_id == c && r.user_id == i))

/-- Embeds `db::get_users_for_chat` (`src/db.rs` lines 41-52): `SELECT
user_id, first_name FROM users WHERE chat_id = ?1`, in storage order. -/
def get_users_for_chat (db : List UserRow) (c : Int) : List User :=
  (db.filter (fun r => r.chat_id == c)).map (fun r => ⟨r.user_id, r.first_name⟩)

/-- Mirrors the teloxide type `ChatMemberKind`: the possible membership roles.
The Telegram status named kicked is the `banned` variant. -/
inductive ChatMemberKind where
  | owner
  | administrator
  | member
  | restricted
  | left
  | banned
deriving DecidableEq

/-- The `matches!` test of `chat_member_handler` (`src/main.rs` lines
62-68): the member is present when the new kind is member, administrator,
owner or restricted. -/
def is_member_kind : ChatMemberKind → Bool
  | .member | .administrator | .owner | .restricted => true
  | _ => false

/-- The `matches!` test of `handle_all_command` (`src/main.rs` lines
191-194): privileged exactly for administrator and owner. -/
def is_admin_kind : ChatMemberKind → Bool
  | .administrator | .owner => true
  | _ => false

/-- A Telegram user as the handlers see it: a u64 identifier (held as a
`Nat`), the bot flag, and `first_name`. -/
structure TgUser where
  id : Nat
  is_bot : Bool
  first_name : List Char
deriving DecidableEq

/-- The `user.id.0 as i64` conversion used whenever a u64 user id is stored
in the i64 `user_id` column: twos-complement reinterpretation. -/
def u64_to_i64 (n : Nat) : Int :=
  if n < 2 ^ 63 then (n : Int) else (n : Int) - 2 ^ 64

/-- Embeds `chat_member_handler` (`src/main.rs` lines 56-92): a membership
status update for `user` in chat `chat_id` upserts a present non-bot user,
deletes a departed user, and otherwise leaves the roster unchanged.  Store
errors are swallowed by the source (`let _ = ...`) and never alter control
flow. -/
def chat_member_handler (db : List UserRow) (chat_id : Int) (user : TgUser)
    (kind : ChatMemberKind) : List UserRow :=
  let is_member := is_member_kind kind
  if is_member && !user.is_bot then
    upsert_user db chat_id (u64_to_i64 user.id) user.first_name
  else if !is_member then
    delete_user db chat_id (u64_to_i64 user.id)
  else
    db

/-- The kind of a chat, after the teloxide type `ChatKind`: `privateChat` is a
direct one-to-one conversation. -/
inductive ChatKind where
  | privateChat
  | group
  | supergroup
  | channel
deriving DecidableEq

/-- A chat: its i64 identifier and its kind. -/
structure Chat where
  id : Int
  kind : ChatKind
deriving DecidableEq

/-- Mirrors `msg.chat.is_group()`. -/
def Chat.is_group (c : Chat) : Bool := c.kind == ChatKind.group

/-- Mirrors `msg.chat.is_supergroup()`. -/
def Chat.is_supergroup (c : Chat) : Bool := c.kind == ChatKind.supergroup

/-- The parts of a teloxide `Message` the command path reads: the chat, the
message identifier (used for reply references) and the optional author
(`msg.from`, here named `sender` because `from` is a Lean keyword). -/
structure Msg where
  chat : Chat
  msg_id : Nat
  sender : Option TgUser
deriving DecidableEq

/-- Embeds `track_message_user` (`src/main.rs` lines 95-114): in a group or
supergroup, upsert the non-bot author of a message; otherwise do nothing. -/
def track_message_user (msg : Msg) (db : List UserRow) : List UserRow :=
  if !(msg.chat.is_group || msg.chat.is_supergroup) then db
  else
    match msg.sender with
    | some user =>
      if !user.is_bot then
        upsert_user db msg.chat.id (u64_to_i64 user.id) user.first_name
      else db
    | none => db

/-- The Rust predicate `char::is_whitespace`: the Unicode `White_Space` property, used
by `str::trim`. -/
def rust_is_whitespace (c : Char) : Bool :=
  [' ', '\t', '\n', '\u000B', '\u000C', '\r', '\u0085', '\u00A0', '\u1680',
   '\u2000', '\u2001', '\u2002', '\u2003', '\u2004', '\u2005', '\u2006',
   '\u2007', '\u2008', '\u2009', '\u200A', '\u2028', '\u2029', '\u202F',
   '\u205F', '\u3000'].contains c

/-- The Rust function `str::trim`: drop leading and trailing whitespace. -/
def trimList (s : List Char) : List Char :=
  ((s.dropWhile rust_is_whitespace).reverse.dropWhile rust_is_whitespace).reverse

/-- Decimal rendering of an i64 value, as the Rust `Display` rendering of `i64`
inside `format!`. -/
def int_str (i : Int) : List Char := (toString i).data

/-- One mention, from `src/main.rs` lines 257-263:
`format!("[{}](tg://user?id={})", escaped_name, u.user_id)` with
`escaped_name = escape_markdown_v2(&u.first_name)`. -/
def mention_of (u : User) : List Char :=
  "[".data ++ escape_markdown_v2 u.first_name ++ "](tg://user?id=".data ++
    int_str u.user_id ++ ")".data

/-- `mentions.join(" ")` (`src/main.rs` line 265). -/
def mentions_join (users : List User) : List Char :=
  List.intercalate [' '] (users.map mention_of)

/-- The spoiler delimiter pair used on both sides of the mention list. -/
def spoilerMark : List Char := "||".data

/-- The line break separating the escaped free text from the mentions. -/
def newlineMark : List Char := ['\n']

/-- The reply body built at `src/main.rs` lines 268-273: spoiler-wrapped
mentions, preceded by the escaped trimmed free text and a newline when that
text is non-blank. -/
def build_reply (text : List Char) (users : List User) : List Char :=
  if (trimList text).isEmpty then
    spoilerMark ++ mentions_join users ++ spoilerMark
  else
    escape_markdown_v2 (trimList text) ++ newlineMark ++ spoilerMark ++
      mentions_join users ++ spoilerMark

/-- The fixed wrong-conversation-type notice (`src/main.rs` line 172). -/
def groupsOnlyText : List Char := "This command only works in groups.".data

/-- The fixed not-authorized notice (`src/main.rs` line 203). -/
def onlyAdminsText : List Char := "Only admins can use this command.".data

/-- The fixed empty-roster notice (`src/main.rs` line 238). -/
def noUsersText : List Char :=
  "No users tracked yet. Users will be tracked as they send messages or join the group.".data

/-- The external-collaborator responses one `/all` invocation can observe:
the `get_chat_member` result for the invoker, the `get_chat_administrators`
result, and whether the `get_users_for_chat` read succeeds (on failure the
source substitutes the empty roster via `unwrap_or_default`). -/
structure Env where
  member_kind : Except Unit ChatMemberKind
  admins : Except Unit (List TgUser)
  roster_read_ok : Bool

/-- One outbound `send_message` call: target chat, body, whether MarkdownV2
parse mode was set, and the reply reference if `reply_parameters` was set. -/
structure Send where
  chat_id : Int
  text : List Char
  markdown_v2 : Bool
  reply_to : Option Nat
deriving DecidableEq

/-- The observable outcome of one command invocation: the final roster
state, the messages sent, which external calls were made, whether the
roster was read, and whether the handler returned `Ok` (`ok = false` models
the `?`-propagated command-level error). -/
structure CmdOut where
  db : List UserRow
  sends : List Send
  called_get_chat_member : Bool
  called_get_admins : Bool
  read_roster : Bool
  ok : Bool
deriving DecidableEq

/-- Embeds `handle_all_command` (`src/main.rs` lines 166-283), linearly:
group-type check, author check, admin gate (whose query failure propagates
as an error), best-effort admin sync, roster read degrading to empty on
store error, and the final composed send. -/
def handle_all_command (env : Env) (msg : Msg) (text : List Char)
    (db : List UserRow) : CmdOut :=
  if !(msg.chat.is_group || msg.chat.is_supergroup) then
    ⟨db, [⟨msg.chat.id, groupsOnlyText, false, none⟩], false, false, false, true⟩
  else
    match msg.sender with
    | none => ⟨db, [], false, false, false, true⟩
    | some _ =>
      match env.member_kind with
      | .error _ => ⟨db, [], true, false, false, false⟩
      | .ok kind =>
        if !(is_admin_kind kind) then
          ⟨db, [⟨msg.chat.id, onlyAdminsText, false, some msg.msg_id⟩],
            true, false, false, true⟩
        else
          let db1 :=
            match env.admins with
            | .ok adminlist =>
              adminlist.foldl
                (fun d a =>
                  if !a.is_bot then
                    upsert_user d msg.chat.id (u64_to_i64 a.id) a.first_name
                  else d)
                db
            | .error _ => db
          let users :=
            if env.roster_read_ok then get_users_for_chat db1 msg.chat.id else []
          if users.isEmpty then
            ⟨db1, [⟨msg.chat.id, noUsersText, false, some msg.msg_id⟩],
              true, true, true, true⟩
          else
            ⟨db1, [⟨msg.chat.id, build_reply text users, true, some msg.msg_id⟩],
              true, true, true, true⟩

/-- Embeds `command_handler` (`src/main.rs` lines 158-164): track the
author of the triggering message, then run the `/all` handler. -/
def command_handler (env : Env) (msg : Msg) (text : List Char)
    (db : List UserRow) : CmdOut :=
  handle_all_command env msg text (track_message_user msg db)

/-- A per-participant clickable reference as the specification words it: the
escaped display name bracketed with a `tg://user?id=` deep link to the
participant identifier. -/
def claimReference (u : User) : List Char :=
  "[".data ++ escape_markdown_v2 u.first_name ++ "](tg://user?id=".data ++
    int_str u.user_id ++ ")".data

/-- The references joined by exactly one space, in roster order, as the
specification words it. -/
def claimJoined (users : List User) : List Char :=
  List.intercalate [' '] (users.map claimReference)

/-- Spoiler-open, the joined references, spoiler-close, as the specification
words the empty-prefix composition. -/
def claimWrapped (users : List User) : List Char :=
  "||".data ++ claimJoined users ++ "||".data

/-- Sample free-text arguments and display names used by the concrete
witness evaluations below. -/
def argBlank : List Char := "  ".data

def argSpace : List Char := " ".data

def argHi : List Char := "Hi *team*".data

def escapedHi : List Char := "Hi \\*team\\*".data

def argDotted : List Char := " a.b ".data

def nameBob : List Char := "Bob".data

def nameBobBang : List Char := "Bob!".data

/-! ## Escaping (claim C1) -/

theorem escAux_escape_markdown_v2 (s : List Char) :
    ∀ prev, escAux specialChars prev (escape_markdown_v2 s) = true := by
  have hbs : ¬ ('\\' ∈ specialChars) := by decide
  induction s with
  | nil => intro prev; rfl
  | cons c cs ih =>
    intro prev
    by_cases h : c ∈ specialChars
    · simp [escape_markdown_v2, h, escAux, hbs, ih]
    · simp [escape_markdown_v2, h, escAux, ih]

theorem escape_filter_special (s : List Char) :
    (escape_markdown_v2 s).filter (fun c => specialChars.contains c) =
      s.filter (fun c => specialChars.contains c) := by
  have hbs : ¬ ('\\' ∈ specialChars) := by decide
  induction s with
  | nil => rfl
  | cons c cs ih =>
    by_cases h : c ∈ specialChars
    · simp [escape_markdown_v2, h, hbs, List.filter_append, List.filter_cons]
      simpa using ih
    · simp [escape_markdown_v2, h, List.filter_append, List.filter_cons]
      simpa using ih

theorem escape_filter_plain (s : List Char) :
    (escape_markdown_v2 s).filter (fun c => !(specialChars.contains c) && c != '\\') =
      s.filter (fun c => !(specialChars.contains c) && c != '\\') := by
  have hbs : ¬ ('\\' ∈ specialChars) := by decide
  induction s with
  | nil => rfl
  | cons c cs ih =>
    by_cases h : c ∈ specialChars
    · simp [escape_markdown_v2, h, hbs, List.filter_append, List.filter_cons]
      simpa using ih
    · by_cases hc : c = '\\'
      · subst hc
        simp [escape_markdown_v2, hbs, List.filter_append, List.filter_cons]
        simpa using ih
      · simp [escape_markdown_v2, h, hc, List.filter_append, List.filter_cons]
        simpa using ih

/-- Claim C1, counterexample: the `special_chars` array of the source does not
contain the backslash, so the input consisting of the single reserved
character backslash passes through unescaped, refuting the claim that every
reserved character (the eighteen punctuation characters plus the escape
character itself) appears immediately preceded by an escape character. -/
theorem escape_backslash_unescaped :
    escape_markdown_v2 ['\\'] = ['\\'] ∧
    claimReserved.contains '\\' = true ∧
    escapedProperly claimReserved (escape_markdown_v2 ['\\']) = false := by
  decide

/-- Claim C1 (amended): with the reserved set taken to be the eighteen
special characters WITHOUT the backslash, the output of
`escape_markdown_v2` has every reserved-character occurrence immediately
preceded by an escape character, keeps every reserved-character occurrence
in order, and passes every other character except the inserted escape
backslashes through unchanged in order (a literal backslash itself passes
through unescaped). -/
theorem escape_markdown_v2_escapes_reserved (s : List Char) :
    escapedProperly specialChars (escape_markdown_v2 s) = true ∧
    (escape_markdown_v2 s).filter (fun c => specialChars.contains c) =
      s.filter (fun c => specialChars.contains c) ∧
    (escape_markdown_v2 s).filter (fun c => !(specialChars.contains c) && c != '\\') =
      s.filter (fun c => !(specialChars.contains c) && c != '\\') :=
  ⟨escAux_escape_markdown_v2 s none, escape_filter_special s, escape_filter_plain s⟩

/-! ## Roster store and membership events (claims C2, C3) -/

theorem mem_get_users_iff (db : List UserRow) (c : Int) (x : User) :
    x ∈ get_users_for_chat db c ↔
      ∃ r, r ∈ db ∧ r.chat_id = c ∧ x = ⟨r.user_id, r.first_name⟩ := by
  simp only [get_users_for_chat, List.mem_map, List.mem_filter, beq_iff_eq]
  constructor
  · rintro ⟨r, ⟨hr, hc⟩, rfl⟩
    exact ⟨r, hr, hc, rfl⟩
  · rintro ⟨r, hr, hc, rfl⟩
    exact ⟨r, ⟨hr, hc⟩, rfl⟩

theorem row_mem_upsert (db : List UserRow) (c i : Int) (n : List Char) :
    (⟨c, i, n⟩ : UserRow) ∈ upsert_user db c i n := by
  induction db with
  | nil => simp [upsert_user]
  | cons r rest ih =>
    by_cases h : r.chat_id = c ∧ r.user_id = i
    · simp [upsert_user, h]
    · simp [upsert_user, h, ih]

theorem mem_get_upsert (db : List UserRow) (c i : Int) (n : List Char) :
    (⟨i, n⟩ : User) ∈ get_users_for_chat (upsert_user db c i n) c :=
  (mem_get_users_iff _ _ _).2 ⟨⟨c, i, n⟩, row_mem_upsert db c i n, rfl, rfl⟩

theorem get_delete_user_id (db : List UserRow) (c i : Int) :
    ∀ x ∈ get_users_for_chat (delete_user db c i) c, x.user_id ≠ i := by
  intro x hx
  rw [mem_get_users_iff] at hx
  obtain ⟨r, hr, hchat, rfl⟩ := hx
  simp only [delete_user, List.mem_filter, Bool.not_eq_eq_eq_not, Bool.not_true,
    Bool.and_eq_false_imp, beq_iff_eq] at hr
  intro hui
  exact absurd (hr.2 hchat) (by simpa using hui)

theorem delete_user_idem (db : List UserRow) (c i : Int) :
    delete_user (delete_user db c i) c i = delete_user db c i := by
  apply List.filter_eq_self.mpr
  intro r hr
  exact (List.mem_filter.1 hr).2

theorem delete_user_absent (db : List UserRow) (c i : Int)
    (h : ∀ r ∈ db, ¬(r.chat_id = c ∧ r.user_id = i)) : delete_user db c i = db := by
  apply List.filter_eq_self.mpr
  intro r hr
  have hnab := h r hr
  by_cases hc : r.chat_id = c
  · have hu : r.user_id ≠ i := fun hui => hnab ⟨hc, hui⟩
    simp [hc, hu]
  · simp [hc]

/-- Claim C2: a membership-status event with a present role kind (member,
administrator, owner or restricted) for a non-bot participant puts that
participant, with the display name carried by the event, into the roster
listing of the group. -/
theorem present_member_in_roster (db : List UserRow) (c : Int) (u : TgUser)
    (k : ChatMemberKind) (hk : is_member_kind k = true) (hb : u.is_bot = false) :
    (⟨u64_to_i64 u.id, u.first_name⟩ : User) ∈
      get_users_for_chat (chat_member_handler db c u k) c := by
  simp only [chat_member_handler, hk, hb, Bool.not_false, Bool.and_self, if_true]
  exact mem_get_upsert db c _ _

/-- Claim C2, witness: processing a `member` status event for user 7 in
chat -100 over the empty roster makes the listing contain user 7. -/
theorem present_member_in_roster_witness :
    is_member_kind ChatMemberKind.member = true ∧
    (⟨7, false, ['A']⟩ : TgUser).is_bot = false ∧
    (⟨u64_to_i64 7, ['A']⟩ : User) ∈
      get_users_for_chat
        (chat_member_handler [] (-100) ⟨7, false, ['A']⟩ ChatMemberKind.member) (-100) :=
  ⟨by decide, rfl,
    present_member_in_roster [] (-100) ⟨7, false, ['A']⟩ ChatMemberKind.member
      (by decide) rfl⟩

/-- Claim C3: a membership-status event with a departed role kind removes
the participant from the roster listing of the group, processing the same
event again changes nothing (departure handling is idempotent), and
deleting an absent record is a no-op. -/
theorem departed_member_absent (db : List UserRow) (c : Int) (u : TgUser)
    (k : ChatMemberKind) (hk : is_member_kind k = false) :
    (∀ x ∈ get_users_for_chat (chat_member_handler db c u k) c,
        x.user_id ≠ u64_to_i64 u.id)
    ∧ chat_member_handler (chat_member_handler db c u k) c u k =
        chat_member_handler db c u k
    ∧ ((∀ r ∈ db, ¬(r.chat_id = c ∧ r.user_id = u64_to_i64 u.id)) →
        chat_member_handler db c u k = db) := by
  have hh : ∀ d : List UserRow,
      chat_member_handler d c u k = delete_user d c (u64_to_i64 u.id) := by
    intro d
    simp [chat_member_handler, hk]
  refine ⟨?_, ?_, ?_⟩
  · rw [hh]
    exact get_delete_user_id db c _
  · rw [hh, hh, delete_user_idem]
  · intro habs
    rw [hh]
    exact delete_user_absent db c _ habs

/-- Claim C3, witness: a `left` status event for user 7 in chat -100 over a
roster holding user 7 removes it, and reprocessing changes nothing. -/
theorem departed_member_absent_witness :
    is_member_kind ChatMemberKind.left = false ∧
    ((∀ x ∈ get_users_for_chat
          (chat_member_handler [⟨-100, 7, ['A']⟩] (-100) ⟨7, false, ['A']⟩
            ChatMemberKind.left) (-100),
        x.user_id ≠ u64_to_i64 7)
    ∧ chat_member_handler
        (chat_member_handler [⟨-100, 7, ['A']⟩] (-100) ⟨7, false, ['A']⟩
          ChatMemberKind.left) (-100) ⟨7, false, ['A']⟩ ChatMemberKind.left =
        chat_member_handler [⟨-100, 7, ['A']⟩] (-100) ⟨7, false, ['A']⟩
          ChatMemberKind.left
    ∧ ((∀ r ∈ [(⟨-100, 7, ['A']⟩ : UserRow)],
          ¬(r.chat_id = -100 ∧ r.user_id = u64_to_i64 7)) →
        chat_member_handler [⟨-100, 7, ['A']⟩] (-100) ⟨7, false, ['A']⟩
          ChatMemberKind.left = [⟨-100, 7, ['A']⟩])) :=
  ⟨by decide,
    departed_member_absent [⟨-100, 7, ['A']⟩] (-100) ⟨7, false, ['A']⟩
      ChatMemberKind.left (by decide)⟩

/-! ## Mention composition (claims C4, C5, C10) -/

theorem build_reply_blank (users : List User) (text : List Char)
    (h : trimList text = []) :
    build_reply text users = spoilerMark ++ mentions_join users ++ spoilerMark := by
  simp [build_reply, h]

theorem build_reply_nonblank (users : List User) (text : List Char)
    (h : trimList text ≠ []) :
    build_reply text users =
      escape_markdown_v2 (trimList text) ++
        '\n' :: (spoilerMark ++ mentions_join users ++ spoilerMark) := by
  have he : (trimList text).isEmpty = false := by
    cases ht : trimList text with
    | nil => exact absurd ht h
    | cons a t => rfl
  simp [build_reply, he, newlineMark, List.append_assoc]

/-- Claim C4: with an empty or blank free-text argument, the composed body
is exactly spoiler-open, the per-participant references joined by one space
in roster order, spoiler-close, with no prefix line. -/
theorem compose_blank_text (users : List User) (text : List Char)
    (h : trimList text = []) :
    build_reply text users = claimWrapped users := by
  rw [build_reply_blank users text h]
  rfl

/-- Claim C4, witness: a whitespace-only argument over a one-user roster
yields the bare wrapped mention list. -/
theorem compose_blank_text_witness :
    trimList argBlank = [] ∧
    build_reply argBlank [⟨7, nameBobBang⟩] = claimWrapped [⟨7, nameBobBang⟩] :=
  ⟨by decide, compose_blank_text [⟨7, nameBobBang⟩] argBlank (by decide)⟩

/-- Claim C5: with a non-blank free-text argument, the composed body is the
escaped (trimmed) argument, a line break, then the spoiler-wrapped joined
references. -/
theorem compose_nonblank_text (users : List User) (text : List Char)
    (h : trimList text ≠ []) :
    build_reply text users =
      escape_markdown_v2 (trimList text) ++ '\n' :: claimWrapped users := by
  rw [build_reply_nonblank users text h]
  rfl

/-- Claim C5, witness: the example of the specification "Hi *team*" escapes to
the prefix line `Hi \*team\*` followed by the wrapped reference. -/
theorem compose_nonblank_text_witness :
    trimList argHi ≠ [] ∧
    escape_markdown_v2 (trimList argHi) = escapedHi ∧
    build_reply argHi [⟨7, nameBob⟩] =
      escape_markdown_v2 (trimList argHi) ++
        '\n' :: claimWrapped [⟨7, nameBob⟩] :=
  ⟨by decide, by decide,
    compose_nonblank_text [⟨7, nameBob⟩] argHi (by decide)⟩

/-- Claim C10: the free-text argument is trimmed before escaping — a blank
argument composes exactly like the empty one, and the prefix line of a non-blank argument is the escaped form of the argument with surrounding whitespace
removed. -/
theorem argument_trimmed_before_escape (users : List User) (text : List Char) :
    (trimList text = [] → build_reply text users = build_reply [] users)
    ∧ (trimList text ≠ [] →
        build_reply text users =
          escape_markdown_v2 (trimList text) ++ '\n' :: claimWrapped users) := by
  constructor
  · intro h
    rw [build_reply_blank users text h, build_reply_blank users [] rfl]
  · intro h
    rw [build_reply_nonblank users text h]
    rfl

/-- Claim C10, witness: the argument " a.b " is trimmed to "a.b" and the
prefix line is its escaped form; the blank argument "  " composes like the
empty one. -/
theorem argument_trimmed_before_escape_witness :
    (trimList argDotted ≠ [] ∧
      build_reply argDotted [⟨7, nameBob⟩] =
        escape_markdown_v2 (trimList argDotted) ++
          '\n' :: claimWrapped [⟨7, nameBob⟩]) ∧
    (trimList argSpace = [] ∧
      build_reply argSpace [⟨7, nameBob⟩] = build_reply [] [⟨7, nameBob⟩]) :=
  ⟨⟨by decide,
      (argument_trimmed_before_escape [⟨7, nameBob⟩] argDotted).2 (by decide)⟩,
    ⟨by decide,
      (argument_trimmed_before_escape [⟨7, nameBob⟩] argSpace).1 (by decide)⟩⟩

/-! ## Command orchestration (claims C6, C7, C8, C9) -/

/-- Claim C6: the gate is privileged exactly for administrator and owner,
and when the role query fails the command propagates the error, sends
nothing, and performs no admin-sync, roster read or mention composition. -/
theorem admin_gate_and_query_failure :
    (∀ k, is_admin_kind k = true ↔
      (k = ChatMemberKind.administrator ∨ k = ChatMemberKind.owner))
    ∧ ∀ (env : Env) (msg : Msg) (text : List Char) (db : List UserRow) (u : TgUser),
        (msg.chat.is_group || msg.chat.is_supergroup) = true →
        msg.sender = some u →
        env.member_kind = Except.error () →
        command_handler env msg text db =
          ⟨track_message_user msg db, [], true, false, false, false⟩ := by
  constructor
  · intro k
    cases k <;> simp [is_admin_kind]
  · intro env msg text db u hg hs he
    simp [command_handler, handle_all_command, hg, hs, he]

/-- Claim C6, witness: an owner passes the gate, and a failing role query
in a group produces the error outcome with no sends and no further calls. -/
theorem admin_gate_and_query_failure_witness :
    (is_admin_kind ChatMemberKind.owner = true ↔
      (ChatMemberKind.owner = ChatMemberKind.administrator ∨
        ChatMemberKind.owner = ChatMemberKind.owner)) ∧
    (((⟨-5, ChatKind.group⟩ : Chat).is_group ||
        (⟨-5, ChatKind.group⟩ : Chat).is_supergroup) = true ∧
      command_handler ⟨Except.error (), Except.ok [], true⟩
          ⟨⟨-5, ChatKind.group⟩, 9, some ⟨3, false, ['a']⟩⟩ [] [] =
        ⟨track_message_user ⟨⟨-5, ChatKind.group⟩, 9, some ⟨3, false, ['a']⟩⟩ [],
          [], true, false, false, false⟩) :=
  ⟨admin_gate_and_query_failure.1 ChatMemberKind.owner,
    by decide,
    admin_gate_and_query_failure.2 ⟨Except.error (), Except.ok [], true⟩
      ⟨⟨-5, ChatKind.group⟩, 9, some ⟨3, false, ['a']⟩⟩ [] [] ⟨3, false, ['a']⟩
      (by decide) rfl rfl⟩

/-- Claim C7, counterexample: invoked in a private chat, the command sends
the wrong-conversation-type notice WITHOUT a reply reference to the
triggering message (the type-rejection send of the source has no
`reply_parameters`), so not every user-visible reply of this command
carries one. -/
theorem type_rejection_no_reply_reference :
    (command_handler ⟨Except.ok ChatMemberKind.member, Except.ok [], true⟩
        ⟨⟨5, ChatKind.privateChat⟩, 10, some ⟨1, false, ['u']⟩⟩ [] []).sends =
      [⟨5, groupsOnlyText, false, none⟩] := by
  decide

/-- Claim C7 (amended): every user-visible reply sent by the command in a
group-type conversation (not-authorized notice, empty-roster notice, or the
composed mention message) carries a reply reference to the triggering
message; only the wrong-conversation-type notice, sent outside group-type
conversations, lacks it. -/
theorem group_sends_reference_trigger (env : Env) (msg : Msg) (text : List Char)
    (db : List UserRow)
    (hg : (msg.chat.is_group || msg.chat.is_supergroup) = true) :
    ∀ s ∈ (command_handler env msg text db).sends, s.reply_to = some msg.msg_id := by
  intro s hs
  unfold command_handler handle_all_command at hs
  repeat' split at hs
  all_goals try simp_all
  all_goals (split at hs <;> simp_all)

/-- Claim C7 (amended), witness: the rejection reply to a non-admin in a
group references the triggering message. -/
theorem group_sends_reference_trigger_witness :
    ((⟨-5, ChatKind.group⟩ : Chat).is_group ||
      (⟨-5, ChatKind.group⟩ : Chat).is_supergroup) = true ∧
    ∀ s ∈ (command_handler ⟨Except.ok ChatMemberKind.member, Except.ok [], true⟩
        ⟨⟨-5, ChatKind.group⟩, 10, some ⟨1, false, ['u']⟩⟩ [] []).sends,
      s.reply_to = some 10 :=
  ⟨by decide,
    group_sends_reference_trigger ⟨Except.ok ChatMemberKind.member, Except.ok [], true⟩
      ⟨⟨-5, ChatKind.group⟩, 10, some ⟨1, false, ['u']⟩⟩ [] [] (by decide)⟩

/-- Claim C8: for a privileged invoker in a group, a failing roster read
does not abort the command — it degrades to the empty roster and sends the
fixed empty-roster notice (with a reply reference), returning success. -/
theorem roster_read_error_as_empty (env : Env) (msg : Msg) (text : List Char)
    (db : List UserRow) (u : TgUser) (k : ChatMemberKind)
    (hg : (msg.chat.is_group || msg.chat.is_supergroup) = true)
    (hs : msg.sender = some u) (hm : env.member_kind = Except.ok k)
    (ha : is_admin_kind k = true) (hr : env.roster_read_ok = false) :
    (command_handler env msg text db).ok = true ∧
    (command_handler env msg text db).sends =
      [⟨msg.chat.id, noUsersText, false, some msg.msg_id⟩] := by
  unfold command_handler handle_all_command
  rcases hka : env.admins with e | al <;> simp [hg, hs, hm, ha, hr, hka]

/-- Claim C8, witness: an administrator invoking `/all` while the roster
read fails gets exactly the empty-roster notice and a successful outcome. -/
theorem roster_read_error_as_empty_witness :
    (⟨Except.ok ChatMemberKind.administrator, Except.error (), false⟩ : Env).roster_read_ok
        = false ∧
    (command_handler ⟨Except.ok ChatMemberKind.administrator, Except.error (), false⟩
        ⟨⟨-5, ChatKind.group⟩, 9, some ⟨3, false, ['a']⟩⟩ [] []).ok = true ∧
    (command_handler ⟨Except.ok ChatMemberKind.administrator, Except.error (), false⟩
        ⟨⟨-5, ChatKind.group⟩, 9, some ⟨3, false, ['a']⟩⟩ [] []).sends =
      [⟨-5, noUsersText, false, some 9⟩] :=
  ⟨rfl,
    (roster_read_error_as_empty ⟨Except.ok ChatMemberKind.administrator, Except.error (), false⟩
      ⟨⟨-5, ChatKind.group⟩, 9, some ⟨3, false, ['a']⟩⟩ [] [] ⟨3, false, ['a']⟩
      ChatMemberKind.administrator (by decide) rfl rfl (by decide) rfl).1,
    (roster_read_error_as_empty ⟨Except.ok ChatMemberKind.administrator, Except.error (), false⟩
      ⟨⟨-5, ChatKind.group⟩, 9, some ⟨3, false, ['a']⟩⟩ [] [] ⟨3, false, ['a']⟩
      ChatMemberKind.administrator (by decide) rfl rfl (by decide) rfl).2⟩

/-- Claim C9: a non-privileged invoker in a group changes the roster at
most by the upsert of the invoker (done by message tracking), receives
exactly one rejection reply, and triggers no admin fetch. -/
theorem non_admin_invocation_frame (env : Env) (msg : Msg) (text : List Char)
    (db : List UserRow) (u : TgUser) (k : ChatMemberKind)
    (hg : (msg.chat.is_group || msg.chat.is_supergroup) = true)
    (hs : msg.sender = some u) (hm : env.member_kind = Except.ok k)
    (ha : is_admin_kind k = false) :
    ((command_handler env msg text db).db = db ∨
      (command_handler env msg text db).db =
        upsert_user db msg.chat.id (u64_to_i64 u.id) u.first_name) ∧
    (command_handler env msg text db).sends =
      [⟨msg.chat.id, onlyAdminsText, false, some msg.msg_id⟩] ∧
    (command_handler env msg text db).called_get_admins = false := by
  have hres : command_handler env msg text db =
      ⟨track_message_user msg db,
        [⟨msg.chat.id, onlyAdminsText, false, some msg.msg_id⟩],
        true, false, false, true⟩ := by
    unfold command_handler handle_all_command
    simp [hg, hs, hm, ha]
  rw [hres]
  refine ⟨?_, rfl, rfl⟩
  by_cases hb : u.is_bot = true
  · left
    simp [track_message_user, hg, hs, hb]
  · right
    simp only [Bool.not_eq_true] at hb
    simp [track_message_user, hg, hs, hb]

/-- Claim C9, witness: a plain member invoking `/all` in a group over the
empty roster gets one rejection reply, no admin fetch, and the roster holds
at most the invoker. -/
theorem non_admin_invocation_frame_witness :
    is_admin_kind ChatMemberKind.member = false ∧
    ((command_handler ⟨Except.ok ChatMemberKind.member, Except.ok [], true⟩
          ⟨⟨-5, ChatKind.group⟩, 9, some ⟨3, false, ['a']⟩⟩ [] []).db = [] ∨
      (command_handler ⟨Except.ok ChatMemberKind.member, Except.ok [], true⟩
          ⟨⟨-5, ChatKind.group⟩, 9, some ⟨3, false, ['a']⟩⟩ [] []).db =
        upsert_user [] (-5) (u64_to_i64 3) ['a']) ∧
    (command_handler ⟨Except.ok ChatMemberKind.member, Except.ok [], true⟩
        ⟨⟨-5, ChatKind.group⟩, 9, some ⟨3, false, ['a']⟩⟩ [] []).sends =
      [⟨-5, onlyAdminsText, false, some 9⟩] ∧
    (command_handler ⟨Except.ok ChatMemberKind.member, Except.ok [], true⟩
        ⟨⟨-5, ChatKind.group⟩, 9, some ⟨3, false, ['a']⟩⟩ [] []).called_get_admins
      = false :=
  ⟨by decide,
    non_admin_invocation_frame ⟨Except.ok ChatMemberKind.member, Except.ok [], true⟩
      ⟨⟨-5, ChatKind.group⟩, 9, some ⟨3, false, ['a']⟩⟩ [] [] ⟨3, false, ['a']⟩
      ChatMemberKind.member (by decide) rfl rfl (by decide)⟩
